import Mathlib

/-
Verification of the vaultops orchestration core.

Shallow embedding of the Python sources under src/pylib/vaultops (and the
retry-join projection of src/plugins/inventory/vault_inventory_builder.py).
Machine integers are Nat/Int, Python dicts are ordered association lists,
Python Optional is Option, raised exceptions are Except errors.  Reason and
error strings keep the static prefix of the source f-strings; interpolated
values are elided unless the claim depends on them.  PEM serialization of
keys and certificates is injective, so a serialized artifact is modelled by
its parsed value.
-/

namespace Vaultops

/-- Exceptions of the vaultops package: `retry` models `VaultOpsRetryError`,
`safeExit` models `VaultOpsSafeExit`, `valueError` models Python `ValueError`
(and any other non-vaultops exception), `interrupt` models
`KeyboardInterrupt` (src/pylib/vaultops/dunder-init). -/
inductive VErr where
  | retry (msg : String)
  | safeExit (msg : String)
  | valueError (msg : String)
  | interrupt
deriving Repr, DecidableEq

/-- Whether an exception outcome is the retryable `VaultOpsRetryError` kind. -/
def isRetryErr {α : Type} : Except VErr α → Bool
  | .error (.retry _) => true
  | _ => false

/-- Whether an `Except` result is a success. -/
def exceptIsOk {ε α : Type} : Except ε α → Bool
  | .ok _ => true
  | .error _ => false

/-! ## Top-level retry loop (src/pylib/vaultops/double-underscore-main, `main`) -/

/-- Outcome of one attempt of the orchestration body
(`vault_setup` plus optional `setup_github`): either it returns, or it
raises an exception. -/
inductive RunOutcome where
  | ok
  | err (e : VErr)
deriving Repr, DecidableEq

/-- Observable result of `main`: normal return, `sys.exit(0)`, `sys.exit(1)`,
or an exception propagating out of `main`. -/
inductive MainResult where
  | completed
  | exitZero
  | exitOne
  | raised (msg : String)
deriving Repr, DecidableEq

/-- Result of `main` together with the number of orchestration attempts made
and the total seconds spent in `time.sleep`. -/
structure MainRes where
  result : MainResult
  attempts : Nat
  waited : Nat
deriving Repr, DecidableEq

/-- The `while max_vaultops_retries > 0` loop of `main`.  `outcomes i` is the
outcome of the i-th execution of the try-block.  `VaultOpsRetryError` is
retried while retries remain (10-second sleep); `VaultOpsSafeExit` exits 0;
`KeyboardInterrupt` exits 1; any other exception is immediately wrapped in a
final `VaultOpsRetryError` and re-raised. -/
def mainLoop (outcomes : Nat → RunOutcome) : Nat → Nat → Nat → MainRes
  | 0, idx, waited => ⟨.completed, idx, waited⟩
  | retries + 1, idx, waited =>
    match outcomes idx with
    | .ok => ⟨.completed, idx + 1, waited⟩
    | .err (.retry _) =>
      if retries > 0 then mainLoop outcomes retries (idx + 1) (waited + 10)
      else ⟨.raised "Error occurred while setting vault, retries exhausted", idx + 1, waited⟩
    | .err (.safeExit _) => ⟨.exitZero, idx + 1, waited⟩
    | .err .interrupt => ⟨.exitOne, idx + 1, waited⟩
    | .err (.valueError _) =>
      ⟨.raised "Error occurred while setting vault, retries exhausted", idx + 1, waited⟩

/-- `main`: the retry loop with `max_vaultops_retries = 5` and
`max_vaultops_retry_wait = 10`. -/
def main (outcomes : Nat → RunOutcome) : MainRes :=
  mainLoop outcomes 5 0 0

/-! ## Cluster topology resolver
(src/pylib/vaultops/builder/vault_raft_node.py and models/vault_node.py,
models/vault_server.py, models/vault_raft_node.py) -/

/-- `VaultNode` (models/vault_node.py).  `explicit_retry_join_nodes` defaults
to the empty dict; an explicit YAML null gives `none`. -/
structure VaultNode where
  node_port : Nat
  cluster_port : Nat
  api_addr_fqdn : Option String := none
  api_ip : Option String := none
  cluster_addr_fqdn : Option String := none
  cluster_ip : Option String := none
  explicit_retry_join_nodes : Option (List String) := some []
deriving Repr, DecidableEq

/-- `VaultServer` (models/vault_server.py), restricted to the fields used by
`build_raft_server_nodes_map`; `vault_nodes` is an ordered dict. -/
structure VaultServer where
  cluster_addr_fqdn : Option String := none
  cluster_ip : Option String := none
  api_addr_fqdn : Option String := none
  api_ip : Option String := none
  vault_nodes : List (String × VaultNode)
deriving Repr, DecidableEq

/-- `VaultRaftNode` (models/vault_raft_node.py): a `VaultNode` enriched with
server name, node name and the HA-hostname SAN entry; the resolved address
fields are written back by the builder. -/
structure VaultRaftNode where
  node_port : Nat
  cluster_port : Nat
  api_addr_fqdn : Option String
  api_ip : Option String
  cluster_addr_fqdn : Option String
  cluster_ip : Option String
  explicit_retry_join_nodes : Option (List String)
  server_name : String
  node_name : String
  ha_hostname_san_entry : String
deriving Repr, DecidableEq

/-- `VaultRaftNode.node_id` (models/vault_raft_node.py). -/
def VaultRaftNode.node_id (n : VaultRaftNode) : String :=
  n.server_name ++ "-" ++ n.node_name

/-- The config slice consumed by `build_raft_server_nodes_map`
(`vault_config.vault_servers` and `vault_config.vault_ha_hostname_san_entry`). -/
structure VaultConfigTopo where
  vault_servers : List (String × VaultServer)
  vault_ha_hostname_san_entry : String
deriving Repr, DecidableEq

/-- Models Python `ipaddress.ip_address` acceptance for dotted-quad IPv4
literals: four decimal groups, each 0..255, no leading zeros.  (IPv6
acceptance is not modelled; no claim exercises it.) -/
def ip_address_valid (s : String) : Bool :=
  let parts := s.splitOn "."
  parts.length == 4 && parts.all fun p =>
    !p.isEmpty && p.all Char.isDigit && p.toNat! ≤ 255 &&
      (p.length == 1 || p.front != '0')

/-- Python `a if a else b` for optional strings: an empty string is falsy and
falls back to `b`. -/
def orFalsy (a b : Option String) : Option String :=
  match a with
  | some s => if s.data.isEmpty then b else some s
  | none => b

/-- Python falsiness of an optional string (`not x`). -/
def falsyS : Option String → Bool
  | none => true
  | some s => s.data.isEmpty

/-- Whether `ipaddress.ip_address(ip_addr)` raises for a truthy value
(`if ip_addr: try: ip_address(ip_addr) except: raise ValueError`). -/
def ipBad : Option String → Bool
  | none => false
  | some s => !s.data.isEmpty && !ip_address_valid s

/-- The per-node body of `build_raft_server_nodes_map`
(builder/vault_raft_node.py): constructs the `VaultRaftNode` with resolved
addresses. -/
def mkRaftNode (server_name node_name san : String) (nd : VaultNode)
    (api_addr_fqdn api_ip cluster_addr_fqdn cluster_ip : Option String) : VaultRaftNode :=
  { node_port := nd.node_port
    cluster_port := nd.cluster_port
    api_addr_fqdn := api_addr_fqdn
    api_ip := api_ip
    cluster_addr_fqdn := cluster_addr_fqdn
    cluster_ip := cluster_ip
    explicit_retry_join_nodes := nd.explicit_retry_join_nodes
    server_name := server_name
    node_name := node_name
    ha_hostname_san_entry := san }

/-- The inner node loop of `build_raft_server_nodes_map`.
`validation_node_port` is the per-server port set, `validation_node_id` the
global node-id set; both are modelled as lists used as sets. -/
def buildNodes (vault_server_name : String) (sv : VaultServer) (san : String) :
    List (String × VaultNode) → List Nat → List String →
    Except String (List (String × VaultRaftNode) × List Nat × List String)
  | [], validation_node_port, validation_node_id =>
    .ok ([], validation_node_port, validation_node_id)
  | (node_name, nd) :: rest, validation_node_port, validation_node_id =>
    if ipBad (orFalsy nd.api_ip sv.api_ip) || ipBad (orFalsy nd.cluster_ip sv.cluster_ip) then
      .error ("Vault Server: " ++ vault_server_name ++ ", Vault Node: " ++ node_name ++
        ", is not a valid IP address")
    else if falsyS (orFalsy nd.api_addr_fqdn sv.api_addr_fqdn) &&
        falsyS (orFalsy nd.api_ip sv.api_ip) then
      .error ("Vault Server: " ++ vault_server_name ++ ", Vault Node: " ++ node_name ++
        ", api_addr_fqdn or api_ip are required")
    else if falsyS (orFalsy nd.cluster_addr_fqdn sv.cluster_addr_fqdn) &&
        falsyS (orFalsy nd.cluster_ip sv.cluster_ip) then
      .error ("Vault Server: " ++ vault_server_name ++ ", Vault Node: " ++ node_name ++
        ", cluster_addr_fqdn or cluster_ip are required")
    else if validation_node_port.contains nd.node_port ||
        validation_node_port.contains nd.cluster_port ||
        nd.node_port == nd.cluster_port then
      .error ("Vault Server: " ++ vault_server_name ++ ", Vault Node: " ++ node_name ++
        ", node_port or cluster_port is already in use")
    else if validation_node_id.contains (vault_server_name ++ "-" ++ node_name) then
      .error ("Vault Server: " ++ vault_server_name ++ ", Vault Node: " ++ node_name ++
        ", node_id is already in use")
    else
      match buildNodes vault_server_name sv san rest
          (nd.cluster_port :: nd.node_port :: validation_node_port)
          ((vault_server_name ++ "-" ++ node_name) :: validation_node_id) with
      | .error e => .error e
      | .ok (out, psF, idsF) =>
        .ok ((vault_server_name ++ "-" ++ node_name,
          mkRaftNode vault_server_name node_name san nd
            (orFalsy nd.api_addr_fqdn sv.api_addr_fqdn) (orFalsy nd.api_ip sv.api_ip)
            (orFalsy nd.cluster_addr_fqdn sv.cluster_addr_fqdn)
            (orFalsy nd.cluster_ip sv.cluster_ip)) :: out, psF, idsF)

/-- The outer server loop of `build_raft_server_nodes_map`: the port set is
re-initialized for every server, the node-id set is threaded through all
servers. -/
def buildServers (san : String) :
    List (String × VaultServer) → List String →
    Except String (List (String × List (String × VaultRaftNode)) × List String)
  | [], validation_node_id => .ok ([], validation_node_id)
  | (sname, sv) :: rest, validation_node_id =>
    match buildNodes sname sv san sv.vault_nodes [] validation_node_id with
    | .error e => .error e
    | .ok (nodes, _, validation_node_id) =>
      match buildServers san rest validation_node_id with
      | .error e => .error e
      | .ok (out, idsF) => .ok ((sname, nodes) :: out, idsF)

/-- `build_raft_server_nodes_map` (builder/vault_raft_node.py). -/
def build_raft_server_nodes_map (vault_config : VaultConfigTopo) :
    Except String (List (String × List (String × VaultRaftNode))) :=
  match buildServers vault_config.vault_ha_hostname_san_entry
      vault_config.vault_servers [] with
  | .error e => .error e
  | .ok (out, _) => .ok out

/-- All port values declared by a server's nodes, in iteration order
(each node contributes its `node_port` then its `cluster_port`). -/
def portsOf : List (String × VaultNode) → List Nat
  | [] => []
  | (_, nd) :: rest => nd.node_port :: nd.cluster_port :: portsOf rest

/-- Node ids (`server_name ++ "-" ++ node_name`) of one server's nodes. -/
def idsOf (sname : String) : List (String × VaultNode) → List String
  | [] => []
  | (nname, _) :: rest => (sname ++ "-" ++ nname) :: idsOf sname rest

/-- All node ids of the whole topology, in iteration order. -/
def allIds : List (String × VaultServer) → List String
  | [] => []
  | (sname, sv) :: rest => idsOf sname sv.vault_nodes ++ allIds rest

/-- A topology in which two nodes of different servers declare the same
`node_port` and `cluster_port`. -/
def crossServerDupCfg : VaultConfigTopo :=
  { vault_servers :=
      [ ("server1", { api_addr_fqdn := some "a.example.com"
                      cluster_addr_fqdn := some "a.example.com"
                      vault_nodes := [("node1", { node_port := 8200, cluster_port := 8201 })] }),
        ("server2", { api_addr_fqdn := some "b.example.com"
                      cluster_addr_fqdn := some "b.example.com"
                      vault_nodes := [("node1", { node_port := 8200, cluster_port := 8201 })] }) ]
    vault_ha_hostname_san_entry := "DNS:vault.example.com" }

/-! ## Initialize step (src/pylib/vaultops/vault_setup/initialize.py) -/

/-- The environment `initialize_vault` observes: per-node
`sys.is_initialized()` answers (in `all_raft_nodes` iteration order),
truthiness of `vault_config.unseal_keys()` and `vault_config.tf_state()`,
the interactive inputs, and whether the first node reports initialized after
the `sys.initialize` call. -/
structure InitEnv where
  nodes_initialized : List (String × Bool)
  unseal_keys_present : Bool
  tf_state_present : Bool
  user_continue : String
  key_shares : Int
  key_threshold : Int
  init_result_initialized : Bool
deriving Repr, DecidableEq

deriving instance DecidableEq for Except

/-- Result of `initialize_vault` together with whether
`vault_client.sys.initialize` was invoked on any node. -/
structure InitTrace where
  result : Except VErr Unit
  initialize_called : Bool
deriving Repr, DecidableEq

/-- `initialize_vault` (vault_setup/initialize.py).  The node-id prefix of the
failure message is elided. -/
def initialize_vault (env : InitEnv) : InitTrace :=
  if env.nodes_initialized.any (fun p => p.2) then ⟨.ok (), false⟩
  else if env.unseal_keys_present then
    ⟨.error (.retry "Vault is not initialized but unseal keys are provided."), false⟩
  else if env.tf_state_present then
    ⟨.error (.retry "Terraform state file already exists"), false⟩
  else if env.user_continue.toLower != "yes" then
    ⟨.error (.safeExit "Exiting the initialization process."), false⟩
  else if env.key_shares < 1 || env.key_threshold < 1 then
    ⟨.error (.valueError "Key shares and key threshold must be greater than 0."), false⟩
  else if env.key_shares < env.key_threshold then
    ⟨.error (.valueError "Key shares must be greater than or equal to key threshold."), false⟩
  else if env.init_result_initialized then ⟨.ok (), true⟩
  else ⟨.error (.retry "Vault initialization failed."), true⟩

/-! ## Certificate engine (src/pylib/vaultops/vault_setup/certificate.py and
models/certificate.py) -/

/-- `CertificateDetailsKeyUsage` (models/certificate.py). -/
structure KeyUsageB where
  digital_signature : Bool := false
  content_commitment : Bool := false
  key_encipherment : Bool := false
  data_encipherment : Bool := false
  key_agreement : Bool := false
  key_cert_sign : Bool := false
  crl_sign : Bool := false
  encipher_only : Bool := false
  decipher_only : Bool := false
deriving Repr, DecidableEq

/-- `CertificateDetailsBasicConstraints` (models/certificate.py). -/
structure BasicConstraintsB where
  ca : Bool := false
  path_length : Option Int := none
deriving Repr, DecidableEq

/-- A typed Subject-Alternative-Name entry (`DNSName`, `UniformResourceIdentifier`,
`IPAddress` IPv4/IPv6, `RFC822Name`). -/
inductive GeneralNameB where
  | dns (s : String)
  | uri (s : String)
  | ip4 (s : String)
  | ip6 (s : String)
  | email (s : String)
deriving Repr, DecidableEq

/-- An `AuthorityKeyIdentifier` value.  `key_identifier` is modelled by the
issuer public key itself (the SHA-1 key hash is injective on our abstract
keys). -/
structure AKIB where
  key_identifier : Nat
  authority_cert_serial_number : Int
  authority_cert_issuer : List GeneralNameB
deriving Repr, DecidableEq

/-- An X.509 certificate, as the fields `generate_x590_certificate` reads and
writes.  Time is in days (the unit of `not_valid_after` in
`CertificateDetails`); a public key is an abstract Nat; each extension is an
optional (value, critical) pair. -/
structure X509Cert where
  subject : List (String × String)
  issuer : List (String × String)
  serial_number : Int
  public_key : Option Nat
  aki : Option (AKIB × Bool)
  ski : Option (Nat × Bool)
  key_usage_ext : Option (KeyUsageB × Bool)
  eku_ext : Option (List String × Bool)
  basic_constraints_ext : Option (BasicConstraintsB × Bool)
  san_ext : Option (List GeneralNameB × Bool)
  not_valid_before : Int
  not_valid_after : Int
deriving Repr, DecidableEq

/-- A `certificate_content` string: either the (injective) PEM serialization
of a certificate, or bytes on which `load_pem_x509_certificate` fails. -/
inductive CertContent where
  | pem (c : X509Cert)
  | garbage (desc : String)
deriving Repr, DecidableEq

/-- `CertificateDetails` (models/certificate.py); `name` is an ordered dict
of NameOID attribute names to values. -/
structure CertificateDetails where
  name : List (String × String)
  set_public_key : Bool := true
  authority_key_identifier : Bool := false
  authority_key_identifier_critical : Bool := false
  subject_key_identifier : Bool := false
  subject_key_identifier_critical : Bool := false
  key_usage : Option KeyUsageB := none
  key_usage_critical : Bool := false
  extended_key_usage : Option (List String) := none
  extended_key_usage_critical : Bool := false
  basic_constraints : Option BasicConstraintsB := none
  basic_constraints_critical : Bool := false
  subject_alternative_name : Option (List String) := none
  subject_alternative_name_critical : Bool := false
  not_valid_after : Int := 30
deriving Repr, DecidableEq

/-- `CertificateProperties` (models/certificate.py). -/
structure CertificateProperties where
  certificate_content : Option CertContent := none
  certificate_details : CertificateDetails
deriving Repr, DecidableEq

/-- `GeneratedCertificate` (models/certificate.py).  `certificate_content`
and `certificate_full_chain` are PEM strings, modelled by their parsed
certificates. -/
structure GeneratedCertificate where
  certificate : X509Cert
  certificate_content : X509Cert
  need_to_generate : Bool
  certificate_full_chain : List X509Cert
  need_to_generate_reason : Option String
deriving Repr, DecidableEq

/-- Character-list prefix test (the semantics of `str.startswith(prefix)`). -/
def charsPrefix : List Char → List Char → Bool
  | [], _ => true
  | _ :: _, [] => false
  | a :: as, b :: bs => a == b && charsPrefix as bs

/-- `str.startswith(p)`. -/
def strHasPrefix (p s : String) : Bool := charsPrefix p.data s.data

/-- `s[n:]` on character counts. -/
def strDropChars (s : String) (n : Nat) : String := String.mk (s.data.drop n)

/-- Parse one SAN entry by its typed prefix (`DNS:`, `URI:`, `IP:`, `EMAIL:`).
An invalid IPv4 literal raises `AddressValueError` (a `ValueError`), which
`generate_x590_certificate` does not catch; IPv6 literal validity is not
modelled. -/
def parse_san_entry (san : String) : Except VErr GeneralNameB :=
  if strHasPrefix "DNS:" san then .ok (.dns (strDropChars san 4))
  else if strHasPrefix "URI:" san then .ok (.uri (strDropChars san 4))
  else if strHasPrefix "IP:" san then
    let ip := strDropChars san 3
    if ip.data.contains ':' then .ok (.ip6 ip)
    else if ip_address_valid ip then .ok (.ip4 ip)
    else .error (.valueError ("does not appear to be an IPv4 address: " ++ ip))
  else if strHasPrefix "EMAIL:" san then .ok (.email (strDropChars san 6))
  else
    .error (.retry ("Unknown subject_alternative_name type: " ++ san ++
      ". Supported types are: DNS, URI, IP, EMAIL"))

/-- Parse a SAN list in order, stopping at the first failure. -/
def parse_san_list : List String → Except VErr (List GeneralNameB)
  | [] => .ok []
  | s :: rest =>
    match parse_san_entry s with
    | .error e => .error e
    | .ok g =>
      match parse_san_list rest with
      | .error e => .error e
      | .ok gs => .ok (g :: gs)

/-- The expected structure of the certificate, as built by the
"Set Expectation" section of `generate_x590_certificate`. -/
structure CertExpectation where
  subject : List (String × String)
  issuer : List (String × String)
  public_key : Option Nat
  aki_value : Option AKIB
  aki_critical : Option Bool
  ski_value : Option Nat
  ski_critical : Option Bool
  ku_value : Option KeyUsageB
  ku_critical : Option Bool
  eku_value : Option (List String)
  eku_critical : Option Bool
  bc_value : Option BasicConstraintsB
  bc_critical : Option Bool
  san_value : Option (List GeneralNameB)
  san_critical : Option Bool
  not_valid_before : Int
  not_valid_after : Int
deriving Repr, DecidableEq

/-- The expected `AuthorityKeyIdentifier` built from the CA certificate:
key identifier from the issuer public key, the issuer serial number, and the
issuer's SAN value (empty when the CA has no SAN extension). -/
def mkAki (cacert : X509Cert) : AKIB :=
  { key_identifier := cacert.public_key.getD 0
    authority_cert_serial_number := cacert.serial_number
    authority_cert_issuer := (cacert.san_ext.map Prod.fst).getD [] }

/-- Whether `properties.key_usage` is truthy (a model instance is always
truthy in Python, `None` is falsy). -/
def kuPresent (p : CertificateDetails) : Bool := p.key_usage.isSome

/-- Whether `expected_extended_key_usage_value` gets set: the list must be
present and non-empty (`if properties.extended_key_usage:`). -/
def ekuPresent (p : CertificateDetails) : Bool :=
  match p.extended_key_usage with
  | some l => !l.isEmpty
  | none => false

/-- Whether `properties.basic_constraints` is truthy. -/
def bcPresent (p : CertificateDetails) : Bool := p.basic_constraints.isSome

/-- Whether `expected_subject_alternative_name_value` gets set (present and
non-empty). -/
def sanPresent (p : CertificateDetails) : Bool :=
  match p.subject_alternative_name with
  | some l => !l.isEmpty
  | none => false

/-- The `key_usage_critical cannot be set without key_usage` condition. -/
def kuGuard (p : CertificateDetails) : Bool := !kuPresent p && p.key_usage_critical

/-- The `extended_key_usage_critical cannot be set without extended_key_usage`
condition. -/
def ekuGuard (p : CertificateDetails) : Bool := !ekuPresent p && p.extended_key_usage_critical

/-- The `basic_constraints_critical cannot be set without basic_constraints`
condition. -/
def bcGuard (p : CertificateDetails) : Bool := !bcPresent p && p.basic_constraints_critical

/-- The `subject_alternative_name_critical cannot be set without
subject_alternative_name` condition. -/
def sanGuard (p : CertificateDetails) : Bool :=
  !sanPresent p && p.subject_alternative_name_critical

/-- The "Set Expectation" section of `generate_x590_certificate`: computes
the expected certificate structure, raising (`VaultOpsRetryError`) for the
property combinations the source rejects, in source order. -/
def expectedOf (rsa_private_key : Nat) (p : CertificateDetails)
    (certificate_authority : Option (X509Cert × Nat)) (now : Int) :
    Except VErr CertExpectation :=
  if p.name.isEmpty && certificate_authority.isNone then
    .error (.retry "NAME is required")
  else
  let expected_subject :=
    if !p.name.isEmpty then p.name
    else (certificate_authority.map fun c => c.1.subject).getD []
  let expected_issuer :=
    match certificate_authority with
    | some (cacert, _) => cacert.subject
    | none => expected_subject
  let expected_public_key := if p.set_public_key then some rsa_private_key else none
  if !p.authority_key_identifier && p.authority_key_identifier_critical then
    .error (.retry "authority_key_identifier_critical cannot be set without authority_key_identifier to True")
  else if p.authority_key_identifier && certificate_authority.isNone then
    .error (.retry "authority_key_identifier cannot be set without certificate_authority")
  else
  let aki_value : Option AKIB :=
    if p.authority_key_identifier then certificate_authority.map fun c => mkAki c.1
    else none
  let aki_critical : Option Bool :=
    if aki_value.isSome then some p.authority_key_identifier_critical else none
  let ski_value : Option Nat :=
    if p.subject_key_identifier then some rsa_private_key else none
  if ski_value.isNone && p.subject_key_identifier_critical then
    .error (.retry "SetSubjectKeyIdentifierCritical cannot be set without SetSubjectKeyIdentifier to True")
  else
  let ski_critical : Option Bool :=
    if ski_value.isSome then some p.subject_key_identifier_critical else none
  if kuGuard p then
    .error (.retry "key_usage_critical cannot be set without key_usage")
  else
  let ku_critical : Option Bool := if kuPresent p then some p.key_usage_critical else none
  if ekuGuard p then
    .error (.retry "extended_key_usage_critical cannot be set without extended_key_usage")
  else
  let eku_value : Option (List String) :=
    if ekuPresent p then p.extended_key_usage else none
  let eku_critical : Option Bool :=
    if ekuPresent p then some p.extended_key_usage_critical else none
  if bcGuard p then
    .error (.retry "basic_constraints_critical cannot be set without basic_constraints")
  else
  let bc_critical : Option Bool :=
    if bcPresent p then some p.basic_constraints_critical else none
  match (if sanPresent p then
          (parse_san_list (p.subject_alternative_name.getD [])).map some
         else .ok none : Except VErr (Option (List GeneralNameB))) with
  | .error e => .error e
  | .ok san_value =>
    if sanGuard p then
      .error (.retry "subject_alternative_name_critical cannot be set without subject_alternative_name")
    else
    let san_critical : Option Bool :=
      if san_value.isSome then some p.subject_alternative_name_critical else none
    if p.not_valid_after == 0 then .error (.retry "not_valid_after is required")
    else
    let expected_not_valid_after := now + p.not_valid_after
    match certificate_authority with
    | some (cacert, _) =>
      if expected_not_valid_after > cacert.not_valid_after then
        .error (.retry "Certificate Authority is not valid for the duration of the certificate")
      else
        .ok { subject := expected_subject, issuer := expected_issuer
              public_key := expected_public_key
              aki_value := aki_value, aki_critical := aki_critical
              ski_value := ski_value, ski_critical := ski_critical
              ku_value := p.key_usage, ku_critical := ku_critical
              eku_value := eku_value, eku_critical := eku_critical
              bc_value := p.basic_constraints, bc_critical := bc_critical
              san_value := san_value, san_critical := san_critical
              not_valid_before := now, not_valid_after := expected_not_valid_after }
    | none =>
      .ok { subject := expected_subject, issuer := expected_issuer
            public_key := expected_public_key
            aki_value := aki_value, aki_critical := aki_critical
            ski_value := ski_value, ski_critical := ski_critical
            ku_value := p.key_usage, ku_critical := ku_critical
            eku_value := eku_value, eku_critical := eku_critical
            bc_value := p.basic_constraints, bc_critical := bc_critical
            san_value := san_value, san_critical := san_critical
            not_valid_before := now, not_valid_after := expected_not_valid_after }

/-- Pair an expected extension value with its expected criticality (an
extension is added to the builder only when its value is set). -/
def optExt {α : Type} (v : Option α) (c : Option Bool) : Option (α × Bool) :=
  match v, c with
  | some x, some b => some (x, b)
  | _, _ => none

/-- The certificate produced by `builder.sign` from the expectation and the
drawn `random_serial_number`. -/
def buildCert (e : CertExpectation) (serial : Int) : X509Cert :=
  { subject := e.subject, issuer := e.issuer, serial_number := serial
    public_key := e.public_key
    aki := optExt e.aki_value e.aki_critical
    ski := optExt e.ski_value e.ski_critical
    key_usage_ext := optExt e.ku_value e.ku_critical
    eku_ext := optExt e.eku_value e.eku_critical
    basic_constraints_ext := optExt e.bc_value e.bc_critical
    san_ext := optExt e.san_value e.san_critical
    not_valid_before := e.not_valid_before
    not_valid_after := e.not_valid_after }

/-- The "Validate the certificate" section: the ordered field comparisons of
the existing certificate against the expectation, each paired with the
static prefix of the source's reason message.  Missing extensions read as
`none` for both value and criticality. -/
def fieldChecks (ex : X509Cert) (e : CertExpectation) : List (Bool × String) :=
  [ (ex.subject != e.subject, "Existing certificate subject name is not as expected."),
    (ex.issuer != e.issuer, "Existing certificate issuer name is not as expected."),
    (ex.public_key != e.public_key, "Existing certificate's public key does not match private key used to sign it. "),
    (ex.aki.map Prod.fst != e.aki_value, "Authority Key Identifier Mismatch, Existing Certificate is not signed by OwnCA."),
    (ex.aki.map Prod.snd != e.aki_critical, "Authority Key Identifier Critical Mismatch, Existing Certificate is not signed by OwnCA."),
    (ex.ski.map Prod.fst != e.ski_value, "Subject Key Identifier Mismatch."),
    (ex.ski.map Prod.snd != e.ski_critical, "Subject Key Identifier Critical Mismatch."),
    (ex.key_usage_ext.map Prod.fst != e.ku_value, "Existing certificate's Key Usage does not match."),
    (ex.key_usage_ext.map Prod.snd != e.ku_critical, "Existing certificate's Key Usage Critical does not match."),
    (ex.eku_ext.map Prod.fst != e.eku_value, "Existing certificate's Extended Key Usage does not match."),
    (ex.eku_ext.map Prod.snd != e.eku_critical, "Existing certificate's Extended Key Usage Critical does not match."),
    (ex.basic_constraints_ext.map Prod.fst != e.bc_value, "Existing certificate's Basic Constraints does not match."),
    (ex.basic_constraints_ext.map Prod.snd != e.bc_critical, "Existing certificate's Basic Constraints Critical does not match."),
    (ex.san_ext.map Prod.fst != e.san_value, "Existing certificate's Subject Alternative Name does not match."),
    (ex.san_ext.map Prod.snd != e.san_critical, "Existing certificate's Subject Alternative Name Critical does not match. ") ]

/-- The validity comparisons, run after the field comparisons: expired,
not yet valid, and (when CA-signed) expiring after the issuer. -/
def validityChecks (ex : X509Cert) (certificate_authority : Option (X509Cert × Nat))
    (now : Int) : List (Bool × String) :=
  [ (decide (ex.not_valid_after < now), "Existing certificate is expired"),
    (decide (ex.not_valid_before > now), "Existing certificate is not valid yet"),
    (match certificate_authority with
     | some (cacert, _) => decide (ex.not_valid_after > cacert.not_valid_after)
     | none => false, "Existing certificate's validity is more than Issuer Validity") ]

/-- All comparisons in source order. -/
def allChecks (ex : X509Cert) (e : CertExpectation)
    (certificate_authority : Option (X509Cert × Nat)) (now : Int) : List (Bool × String) :=
  fieldChecks ex e ++ validityChecks ex certificate_authority now

/-- The first failing comparison determines `need_to_generate_reason`
(each comparison in the source is guarded by `if not need_to_generate`). -/
def firstMismatch (checks : List (Bool × String)) : Option String :=
  (checks.find? fun c => c.1).map fun c => c.2

/-- `generate_x590_certificate` (vault_setup/certificate.py).
`certificate_path` is always `None` in the source, so the path branches are
unreachable and omitted.  `now` is `datetime.now(timezone.utc)` and `serial`
is the drawn `random_serial_number()`, both passed explicitly. -/
def generate_x590_certificate (rsa_private_key : Option Nat)
    (certificate_properties : CertificateProperties)
    (certificate_authority : Option (X509Cert × Nat)) (now : Int) (serial : Int) :
    Except VErr GeneratedCertificate :=
  if rsa_private_key.isNone then .error (.retry "rsa_private_key is required")
  else
  let rsa := rsa_private_key.getD 0
  let p := certificate_properties.certificate_details
  match expectedOf rsa p certificate_authority now with
  | .error e => .error e
  | .ok exp =>
    let newCert := buildCert exp serial
    let loaded : Option X509Cert × Option String :=
      match certificate_properties.certificate_content with
      | none => (none, some "certificate_content is empty")
      | some (.garbage d) => (none, some ("certificate_content is invalid + " ++ d))
      | some (.pem c) => (some c, none)
    let step : Bool × Option String :=
      match loaded with
      | (some ex, _) =>
        match firstMismatch (allChecks ex exp certificate_authority now) with
        | some r => (true, some r)
        | none => (false, none)
      | (none, r) => (true, r)
    let outCert : X509Cert :=
      match loaded.1 with
      | some ex => if step.1 then newCert else ex
      | none => newCert
    let chain : List X509Cert :=
      match certificate_authority with
      | some (cacert, _) => [outCert, cacert]
      | none => [outCert]
    .ok { certificate := outCert, certificate_content := outCert
          need_to_generate := step.1
          certificate_full_chain := chain
          need_to_generate_reason := step.2 }

/-- All comparisons pass: the existing certificate conforms to the expected
structure (field values, criticalities, validity window, issuer bound). -/
def conformsTo (ex : X509Cert) (e : CertExpectation)
    (certificate_authority : Option (X509Cert × Nat)) (now : Int) : Bool :=
  (allChecks ex e certificate_authority now).all fun c => !c.1

/-- All field comparisons pass (everything before the validity checks). -/
def fieldsMatch (ex : X509Cert) (e : CertExpectation) : Bool :=
  (fieldChecks ex e).all fun c => !c.1

/-! ## Retry-join projection
(src/plugins/inventory/vault_inventory_builder.py, `parse`) -/

/-- The per-node retry-join resolution of the inventory builder: start from
all node ids with the node itself popped; an explicit non-empty list must
reference only known ids (first unknown id raises, naming it) and filters the
map; an explicit `None` yields the empty map. -/
def resolve_retry_join (vault_server_name node_id : String)
    (all_node_ids : List String)
    (explicit_retry_join_nodes : Option (List String)) : Except String (List String) :=
  let retry_join_nodes := all_node_ids.filter fun x => x != node_id
  match explicit_retry_join_nodes with
  | some l =>
    if l.length > 0 then
      match l.find? (fun e => !retry_join_nodes.contains e) with
      | some missing =>
        .error ("Vault Server: " ++ vault_server_name ++ ", Vault Node: " ++ node_id ++
          ", retry_join_node_id " ++ missing ++ " not found in inventory")
      | none => .ok (retry_join_nodes.filter fun x => l.contains x)
    else .ok retry_join_nodes
  | none => .ok []

/-! ## Private key manager (src/pylib/vaultops/vault_setup/private_key.py and
models/pki_private_key.py) -/

/-- An RSA private key: its size, public exponent and an abstract identity
(`seed`) distinguishing keys of equal parameters. -/
structure RSAKeyV where
  key_size : Nat
  public_exponent : Nat
  seed : Nat
deriving Repr, DecidableEq

/-- A `private_key_content` string: either the (injective) PEM serialization
of a key (encrypted under an optional passphrase), or bytes on which
`load_pem_private_key` fails. -/
inductive KeyContent where
  | garbage (desc : String)
  | key (k : RSAKeyV) (passphrase : Option String)
deriving Repr, DecidableEq

/-- `PrivateKeyProperties` (models/pki_private_key.py). -/
structure PrivateKeyProperties where
  private_key_content : Option KeyContent := none
  private_key_passphrase : Option String := none
  public_exponent : Nat := 65537
  key_size : Nat := 2048
deriving Repr, DecidableEq

/-- `GeneratedPrivateKey` (models/pki_private_key.py). -/
structure GeneratedPrivateKey where
  private_key : RSAKeyV
  private_key_content : KeyContent
  private_key_passphrase : Option String
  need_to_generate : Bool
  need_to_generate_reason : Option String
deriving Repr, DecidableEq

/-- Python truthiness normalization of the passphrase: an empty string acts
like `None` (no encryption, no password). -/
def pwOpt : Option String → Option String
  | some s => if s.data.isEmpty then none else some s
  | none => none

/-- `serialization.load_pem_private_key`: succeeds exactly when the content
is a key serialized under the same password. -/
def load_pem_private_key (content : KeyContent) (password : Option String) :
    Except String RSAKeyV :=
  match content with
  | .garbage d => .error d
  | .key k pw => if pw == password then .ok k else .error "Incorrect password or PEM encryption"

/-- `generate_private_key` (vault_setup/private_key.py).  `private_key_path`
is always `None` in the source, so the path branches are unreachable and
omitted.  `fresh_seed` identifies the key a regeneration would draw. -/
def generate_private_key (private_key_properties : PrivateKeyProperties)
    (fresh_seed : Nat) : GeneratedPrivateKey :=
  let pw := pwOpt private_key_properties.private_key_passphrase
  let fresh : RSAKeyV :=
    { key_size := private_key_properties.key_size
      public_exponent := private_key_properties.public_exponent
      seed := fresh_seed }
  let step : Bool × Option String × RSAKeyV :=
    match private_key_properties.private_key_content with
    | none => (true, some "private_key_content is empty", fresh)
    | some content =>
      match load_pem_private_key content pw with
      | .error e => (true, some ("private_key_content is invalid + " ++ e), fresh)
      | .ok k =>
        if k.key_size != private_key_properties.key_size then
          (true, some "key_size is not valid", fresh)
        else if k.public_exponent != private_key_properties.public_exponent then
          (true, some "public_exponent is not valid", fresh)
        else (false, none, k)
  { private_key := step.2.2
    private_key_content := .key step.2.2 pw
    private_key_passphrase := private_key_properties.private_key_passphrase
    need_to_generate := step.1
    need_to_generate_reason := step.2.1 }

/-! ## Root-token recombination (src/pylib/vaultops/vault_setup/root_token.py) -/

/-- Value of a standard-alphabet base64 character. -/
def b64val (c : Char) : Option Nat :=
  if 'A' ≤ c ∧ c ≤ 'Z' then some (c.toNat - 65)
  else if 'a' ≤ c ∧ c ≤ 'z' then some (c.toNat - 97 + 26)
  else if '0' ≤ c ∧ c ≤ '9' then some (c.toNat - 48 + 52)
  else if c = '+' then some 62
  else if c = '/' then some 63
  else none

/-- Regroup base64 sextets into bytes (4 sextets to 3 bytes; a trailing group
of 3 or 2 sextets yields 2 or 1 bytes, as `binascii` does). -/
def sextetsToBytes : List Nat → List Nat
  | s0 :: s1 :: s2 :: s3 :: rest =>
    (s0 * 4 + s1 / 16) :: ((s1 % 16) * 16 + s2 / 4) :: ((s2 % 4) * 64 + s3) ::
      sextetsToBytes rest
  | [s0, s1, s2] => [s0 * 4 + s1 / 16, (s1 % 16) * 16 + s2 / 4]
  | [s0, s1] => [s0 * 4 + s1 / 16]
  | _ => []

/-- `base64.b64decode(..., validate=False)`: non-alphabet characters are
ignored, decoding stops at the first padding character. -/
def b64decode_bytes (s : String) : List Nat :=
  sextetsToBytes ((s.data.takeWhile fun c => c ≠ '=').filterMap b64val)

/-- `_calculate_new_root` (vault_setup/root_token.py): base64-decode the
encoded root token with appended `==` padding, XOR byte-wise with the ASCII
bytes of the OTP (`zip` truncates to the shorter), and UTF-8-decode.  The
decode is modelled for ASCII output, which the XOR of two ASCII strings
always is. -/
def _calculate_new_root (encoded_root_token otp : String) : String :=
  let root_token := b64decode_bytes (encoded_root_token ++ "==")
  let otp_bytes := otp.data.map Char.toNat
  let final_root_token_bytes := List.zipWith (fun i j => i ^^^ j) root_token otp_bytes
  String.mk (final_root_token_bytes.map Char.ofNat)

/-! ## Storage backend reads (src/pylib/vaultops/models/vault_config.py
`VaultConfig.storage_ops` and src/pylib/vaultops/models/storage.py
`StorageConfig.storage_ops`) -/

/-- Outcome of the S3 `get_object` call: content, a `botocore.ClientError`
carrying an error code, or any other exception. -/
inductive S3GetResult where
  | success (content : String)
  | clientError (code : String)
  | otherError (desc : String)
deriving Repr, DecidableEq

/-- The S3 state `storage_ops` observes on a read: region-validation inputs,
the bucket-versioning status and the `get_object` outcome for the requested
key. -/
structure S3ReadEnv where
  skip_region_validation : Bool
  bucket_location : String
  region : String
  versioning_status : String
  get_result : S3GetResult
deriving Repr, DecidableEq

/-- The read path of `VaultConfig.storage_ops` (models/vault_config.py):
region check (unless skipped), versioning check, then `get_object`; a missing
key (`ClientError` code `NoSuchKey`) returns `None` only when
`error_on_missing_file` is false, every other failure raises `ValueError`. -/
def vault_config_storage_ops_read (env : S3ReadEnv) (error_on_missing_file : Bool) :
    Except String (Option String) :=
  if !env.skip_region_validation && env.bucket_location != env.region then
    .error "Bucket Location does not match the region"
  else if env.versioning_status != "Enabled" then
    .error "Bucket Versioning is not enabled"
  else
    match env.get_result with
    | .success c => .ok (some c)
    | .clientError code =>
      if !error_on_missing_file && code == "NoSuchKey" then .ok none
      else .error "Error reading file from S3"
    | .otherError _ => .error "Error reading file from S3"

/-- The read path of `StorageConfig.storage_ops` (models/storage.py): no
region check; a non-missing `ClientError` raises `S3 Client Error`, any other
exception raises `Error reading file from S3`. -/
def storage_config_storage_ops_read (versioning_status : String)
    (get_result : S3GetResult) (error_on_missing_file : Bool) :
    Except String (Option String) :=
  if versioning_status != "Enabled" then
    .error "Bucket Versioning is not enabled"
  else
    match get_result with
    | .success c => .ok (some c)
    | .clientError code =>
      if !error_on_missing_file && code == "NoSuchKey" then .ok none
      else .error "S3 Client Error"
    | .otherError _ => .error "Error reading file from S3"

/-! ## Concrete scenarios used by witnesses and counterexamples -/

/-- A run in which no node is initialized but unseal-key material is already
in storage; the operator would confirm and supply a valid share split. -/
def envStaleUnseal : InitEnv :=
  { nodes_initialized := [("server1-node1", false), ("server1-node2", false)]
    unseal_keys_present := true
    tf_state_present := false
    user_continue := "yes"
    key_shares := 5
    key_threshold := 3
    init_result_initialized := true }

/-- Certificate properties requesting `key_usage_critical` without
`key_usage`. -/
def kuCritProps : CertificateDetails :=
  { name := [("COMMON_NAME", "unit-test")]
    key_usage := none
    key_usage_critical := true }

/-- A well-formed self-signed certificate request used by the idempotence
scenarios. -/
def demoProps : CertificateDetails :=
  { name := [("COMMON_NAME", "unit-test")]
    subject_key_identifier := true
    key_usage := some { digital_signature := true, key_encipherment := true }
    key_usage_critical := true
    basic_constraints := some { ca := false }
    subject_alternative_name := some ["DNS:vault.example.com"]
    not_valid_after := 30 }

/-- The certificate `demoProps` describes, at a given serial and validity
window (private key 7, no CA, issued at time 100). -/
def demoCert (serial nvb nva : Int) : X509Cert :=
  { subject := [("COMMON_NAME", "unit-test")]
    issuer := [("COMMON_NAME", "unit-test")]
    serial_number := serial
    public_key := some 7
    aki := none
    ski := some (7, false)
    key_usage_ext := some ({ digital_signature := true, key_encipherment := true }, true)
    eku_ext := none
    basic_constraints_ext := some ({ ca := false }, false)
    san_ext := some ([.dns "vault.example.com"], false)
    not_valid_before := nvb
    not_valid_after := nva }

/-- The expectation `demoProps` resolves to (private key 7, no CA, time 100). -/
def demoExp : CertExpectation :=
  { subject := [("COMMON_NAME", "unit-test")]
    issuer := [("COMMON_NAME", "unit-test")]
    public_key := some 7
    aki_value := none
    aki_critical := none
    ski_value := some 7
    ski_critical := some false
    ku_value := some { digital_signature := true, key_encipherment := true }
    ku_critical := some true
    eku_value := none
    eku_critical := none
    bc_value := some { ca := false }
    bc_critical := some false
    san_value := some [.dns "vault.example.com"]
    san_critical := some false
    not_valid_before := 100
    not_valid_after := 130 }

/-- An existing certificate that conforms to `demoProps` at time 100. -/
def c5ex : X509Cert := demoCert 42 100 130

/-- The output of `generate_x590_certificate` on `c5ex`: nothing to do. -/
def c5gen : GeneratedCertificate :=
  { certificate := c5ex
    certificate_content := c5ex
    need_to_generate := false
    certificate_full_chain := [c5ex]
    need_to_generate_reason := none }

/-- `c5ex` with one SAN entry added. -/
def c5exAddedSan : X509Cert :=
  { c5ex with san_ext := some ([.dns "vault.example.com", .dns "added.example.com"], false) }

/-- Regeneration output for `c5exAddedSan`: a fresh certificate at the drawn
serial, with the declared (single-entry) SAN. -/
def c5genAddedSan : GeneratedCertificate :=
  { certificate := demoCert 5 100 130
    certificate_content := demoCert 5 100 130
    need_to_generate := true
    certificate_full_chain := [demoCert 5 100 130]
    need_to_generate_reason := some "Existing certificate's Subject Alternative Name does not match." }

/-- An existing certificate matching `demoProps` on every field but already
expired at time 100. -/
def c6exExpired : X509Cert := demoCert 42 10 50

/-- Regeneration output for `c6exExpired` at serial 9. -/
def c6genExpired : GeneratedCertificate :=
  { certificate := demoCert 9 100 130
    certificate_content := demoCert 9 100 130
    need_to_generate := true
    certificate_full_chain := [demoCert 9 100 130]
    need_to_generate_reason := some "Existing certificate is expired" }

/-- All field comparisons before the Subject-Alternative-Name value
comparison (the first 13 entries of `fieldChecks`) pass. -/
def fieldsMatchBeforeSan (ex : X509Cert) (e : CertExpectation) : Bool :=
  ((fieldChecks ex e).take 13).all fun c => !c.1

/-! ## Theorems -/

/-- C2: as the claim states it, the inconsistent-state rejection would be a
fatal configuration error that is never retried; in the code it is a
`VaultOpsRetryError`, which the top-level loop retries (here: a second
attempt runs after the first raises it). -/
theorem c2_counterexample :
    (initialize_vault envStaleUnseal).result =
      .error (.retry "Vault is not initialized but unseal keys are provided.") ∧
    (initialize_vault envStaleUnseal).initialize_called = false ∧
    main (fun i => if i == 0 then
        .err (.retry "Vault is not initialized but unseal keys are provided.")
      else .ok) = ⟨.completed, 2, 10⟩ :=
  ⟨rfl, rfl, rfl⟩

/-- C2 (amended): when no node reports already-initialized and unseal-key
material or Terraform state already exists in storage, `initialize_vault`
raises the retryable `VaultOpsRetryError` (so the top-level loop retries the
run) before calling initialize on any node. -/
theorem c2_inconsistent_state_retryable (env : InitEnv)
    (hno : env.nodes_initialized.any (fun p => p.2) = false)
    (hst : env.unseal_keys_present = true ∨ env.tf_state_present = true) :
    isRetryErr (initialize_vault env).result = true ∧
    (initialize_vault env).initialize_called = false := by
  rcases hst with hu | ht
  · simp [initialize_vault, hno, hu, isRetryErr]
  · by_cases hu : env.unseal_keys_present <;>
      simp [initialize_vault, hno, hu, ht, isRetryErr]

/-- C2 witness: the amended theorem at the concrete stale-unseal run. -/
theorem c2_witness :
    isRetryErr (initialize_vault envStaleUnseal).result = true ∧
    (initialize_vault envStaleUnseal).initialize_called = false :=
  c2_inconsistent_state_retryable envStaleUnseal rfl (Or.inl rfl)

/-- C3: as the claim states it, every exception other than safe-exit and
interrupt would be retried up to 5 attempts; in the code a generic exception
(modelled by `valueError`) terminates the run after a single attempt with no
wait. -/
theorem c3_counterexample :
    main (fun _ => .err (.valueError "boom")) =
      ⟨.raised "Error occurred while setting vault, retries exhausted", 1, 0⟩ :=
  rfl

/-- C3 (amended): the top-level loop retries only `VaultOpsRetryError`, up to
5 attempts with 10 seconds between attempts, re-raising a final error on
exhaustion; a safe-exit exits 0, an interrupt exits 1, and any other
exception is wrapped and re-raised immediately after its attempt. -/
theorem c3_retry_classification (s : Nat → RunOutcome) (m : String) :
    (s 0 = .err (.valueError m) →
      main s = ⟨.raised "Error occurred while setting vault, retries exhausted", 1, 0⟩) ∧
    ((∀ i, s i = .err (.retry m)) →
      main s = ⟨.raised "Error occurred while setting vault, retries exhausted", 5, 40⟩) ∧
    (s 0 = .err (.safeExit m) → main s = ⟨.exitZero, 1, 0⟩) ∧
    (s 0 = .err .interrupt → main s = ⟨.exitOne, 1, 0⟩) ∧
    (s 0 = .ok → main s = ⟨.completed, 1, 0⟩) := by
  refine ⟨fun h => ?_, fun h => ?_, fun h => ?_, fun h => ?_, fun h => ?_⟩
  · simp [main, mainLoop, h]
  · simp [main, mainLoop, h 0, h 1, h 2, h 3, h 4]
  · simp [main, mainLoop, h]
  · simp [main, mainLoop, h]
  · simp [main, mainLoop, h]

/-- C3 witness: the amended classification at concrete outcome streams. -/
theorem c3_witness :
    main (fun _ => .err (.retry "r")) =
      ⟨.raised "Error occurred while setting vault, retries exhausted", 5, 40⟩ ∧
    main (fun _ => .err (.valueError "v")) =
      ⟨.raised "Error occurred while setting vault, retries exhausted", 1, 0⟩ ∧
    main (fun _ => .ok) = ⟨.completed, 1, 0⟩ :=
  ⟨(c3_retry_classification (fun _ => .err (.retry "r")) "r").2.1 (fun _ => rfl),
   (c3_retry_classification (fun _ => .err (.valueError "v")) "v").1 rfl,
   (c3_retry_classification (fun _ => .ok) "").2.2.2.2 rfl⟩

/-- C7: retry-join projection: an explicit list `[B]` resolves to exactly B;
the default empty list resolves to all other nodes; an explicit id absent
from the topology fails naming that id. -/
theorem c7_retry_join_projection (sname a b c d : String)
    (hab : a ≠ b) (hac : a ≠ c) (hbc : b ≠ c)
    (hda : d ≠ a) (hdb : d ≠ b) (hdc : d ≠ c) :
    resolve_retry_join sname a [a, b, c] (some [b]) = .ok [b] ∧
    resolve_retry_join sname a [a, b, c] (some []) = .ok [b, c] ∧
    resolve_retry_join sname a [a, b, c] (some [d]) =
      .error ("Vault Server: " ++ sname ++ ", Vault Node: " ++ a ++
        ", retry_join_node_id " ++ d ++ " not found in inventory") := by
  have hba : (b != a) = true := bne_iff_ne.mpr (Ne.symm hab)
  have hca : (c != a) = true := bne_iff_ne.mpr (Ne.symm hac)
  refine ⟨?_, ?_, ?_⟩ <;>
    simp [resolve_retry_join, List.filter, List.find?, hba, hca, hbc, Ne.symm hbc,
      hda, hdb, hdc, Ne.symm hda, Ne.symm hdb, Ne.symm hdc]

/-- C7 witness: the projection at three concrete node ids. -/
theorem c7_witness :
    resolve_retry_join "s1" "s1-a" ["s1-a", "s1-b", "s1-c"] (some ["s1-b"]) = .ok ["s1-b"] ∧
    resolve_retry_join "s1" "s1-a" ["s1-a", "s1-b", "s1-c"] (some []) = .ok ["s1-b", "s1-c"] ∧
    resolve_retry_join "s1" "s1-a" ["s1-a", "s1-b", "s1-c"] (some ["s1-x"]) =
      .error ("Vault Server: " ++ "s1" ++ ", Vault Node: " ++ "s1-a" ++
        ", retry_join_node_id " ++ "s1-x" ++ " not found in inventory") :=
  c7_retry_join_projection "s1" "s1-a" "s1-b" "s1-c" "s1-x"
    (by decide) (by decide) (by decide) (by decide) (by decide) (by decide)

/-- C8: `generate_private_key` regenerates (naming the reason) on unparsable
content and on a key-size mismatch, and returns a conforming key unchanged. -/
theorem c8_private_key_regeneration (props : PrivateKeyProperties)
    (fresh_seed : Nat) (k : RSAKeyV) (pw0 : Option String) (d : String) :
    (props.private_key_content = some (.garbage d) →
      (generate_private_key props fresh_seed).need_to_generate = true ∧
      (generate_private_key props fresh_seed).need_to_generate_reason =
        some ("private_key_content is invalid + " ++ d) ∧
      (generate_private_key props fresh_seed).private_key =
        ⟨props.key_size, props.public_exponent, fresh_seed⟩) ∧
    (props.private_key_content = some (.key k pw0) →
      pwOpt props.private_key_passphrase = pw0 →
      k.key_size ≠ props.key_size →
      (generate_private_key props fresh_seed).need_to_generate = true ∧
      (generate_private_key props fresh_seed).need_to_generate_reason =
        some "key_size is not valid" ∧
      (generate_private_key props fresh_seed).private_key =
        ⟨props.key_size, props.public_exponent, fresh_seed⟩) ∧
    (props.private_key_content = some (.key k pw0) →
      pwOpt props.private_key_passphrase = pw0 →
      k.key_size = props.key_size → k.public_exponent = props.public_exponent →
      (generate_private_key props fresh_seed).need_to_generate = false ∧
      (generate_private_key props fresh_seed).private_key = k) := by
  refine ⟨fun h => ?_, fun h hpw hsz => ?_, fun h hpw hsz hexp => ?_⟩
  · simp [generate_private_key, h, load_pem_private_key]
  · simp [generate_private_key, h, load_pem_private_key, hpw, hsz, bne_iff_ne]
  · simp [generate_private_key, h, load_pem_private_key, hpw, hsz, hexp]

/-- C8 witness: the three regeneration scenarios at concrete keys. -/
theorem c8_witness :
    ((generate_private_key { private_key_content := some (.garbage "not pem") } 3).need_to_generate = true ∧
      (generate_private_key { private_key_content := some (.garbage "not pem") } 3).need_to_generate_reason =
        some ("private_key_content is invalid + " ++ "not pem") ∧
      (generate_private_key { private_key_content := some (.garbage "not pem") } 3).private_key =
        ⟨2048, 65537, 3⟩) ∧
    ((generate_private_key { private_key_content := some (.key ⟨4096, 65537, 1⟩ none) } 3).need_to_generate = true ∧
      (generate_private_key { private_key_content := some (.key ⟨4096, 65537, 1⟩ none) } 3).need_to_generate_reason =
        some "key_size is not valid" ∧
      (generate_private_key { private_key_content := some (.key ⟨4096, 65537, 1⟩ none) } 3).private_key =
        ⟨2048, 65537, 3⟩) ∧
    ((generate_private_key { private_key_content := some (.key ⟨2048, 65537, 1⟩ none) } 3).need_to_generate = false ∧
      (generate_private_key { private_key_content := some (.key ⟨2048, 65537, 1⟩ none) } 3).private_key =
        ⟨2048, 65537, 1⟩) :=
  ⟨(c8_private_key_regeneration { private_key_content := some (.garbage "not pem") } 3
      ⟨0, 0, 0⟩ none "not pem").1 rfl,
   (c8_private_key_regeneration { private_key_content := some (.key ⟨4096, 65537, 1⟩ none) } 3
      ⟨4096, 65537, 1⟩ none "").2.1 rfl rfl (by decide),
   (c8_private_key_regeneration { private_key_content := some (.key ⟨2048, 65537, 1⟩ none) } 3
      ⟨2048, 65537, 1⟩ none "").2.2 rfl rfl rfl rfl⟩

/-- C9: root-token recombination golden vector: base64-decoding the encoded
root token (with appended padding) and XOR-ing byte-wise with the ASCII OTP
reproduces the plaintext root token. -/
theorem c9_root_token_golden_vector :
    _calculate_new_root "USQBYjEySCEpa1knYzdHUw" "9RrLkJqPbX4sTf0a" = "hvs.Zx9qK3mT7Qw2" ∧
    b64decode_bytes ("USQBYjEySCEpa1knYzdHUw" ++ "==") =
      [81, 36, 1, 98, 49, 50, 72, 33, 41, 107, 89, 39, 99, 55, 71, 83] := by
  constructor <;> rfl

/-- C10: a missing key returns the absent sentinel only when
`error_on_missing_file` is false and raises when it is true; every other
read failure raises regardless of the flag (for both `VaultConfig` and
`StorageConfig` variants of `storage_ops`). -/
theorem c10_missing_key_semantics (env : S3ReadEnv) (code desc : String) (flag : Bool)
    (hv : env.versioning_status = "Enabled")
    (hr : env.skip_region_validation = true ∨ env.bucket_location = env.region) :
    (vault_config_storage_ops_read { env with get_result := .clientError "NoSuchKey" } false =
      .ok none) ∧
    (vault_config_storage_ops_read { env with get_result := .clientError "NoSuchKey" } true =
      .error "Error reading file from S3") ∧
    (code ≠ "NoSuchKey" →
      vault_config_storage_ops_read { env with get_result := .clientError code } flag =
        .error "Error reading file from S3") ∧
    (vault_config_storage_ops_read { env with get_result := .otherError desc } flag =
      .error "Error reading file from S3") ∧
    (storage_config_storage_ops_read "Enabled" (.clientError "NoSuchKey") false = .ok none) ∧
    (storage_config_storage_ops_read "Enabled" (.clientError "NoSuchKey") true =
      .error "S3 Client Error") ∧
    (code ≠ "NoSuchKey" →
      storage_config_storage_ops_read "Enabled" (.clientError code) flag =
        .error "S3 Client Error") ∧
    (storage_config_storage_ops_read "Enabled" (.otherError desc) flag =
      .error "Error reading file from S3") := by
  have hreg : (!env.skip_region_validation && env.bucket_location != env.region) = false := by
    rcases hr with h | h <;> simp [h]
  refine ⟨?_, ?_, fun hc => ?_, ?_, ?_, ?_, fun hc => ?_, ?_⟩
  · simp [vault_config_storage_ops_read, hreg, hv]
  · simp [vault_config_storage_ops_read, hreg, hv]
  · cases flag <;> simp [vault_config_storage_ops_read, hreg, hv, hc]
  · cases flag <;> simp [vault_config_storage_ops_read, hreg, hv]
  · simp [storage_config_storage_ops_read]
  · simp [storage_config_storage_ops_read]
  · cases flag <;> simp [storage_config_storage_ops_read, hc]
  · cases flag <;> simp [storage_config_storage_ops_read]

/-- C1: as the claim states it, two nodes of different servers sharing a
`node_port` (and a `cluster_port`) would make `build_raft_server_nodes_map`
fail; on this topology both servers declare ports 8200/8201 and resolution
succeeds, because the port validation set is re-initialized per server. -/
theorem c1_counterexample :
    exceptIsOk (build_raft_server_nodes_map crossServerDupCfg) = true ∧
    (crossServerDupCfg.vault_servers.map fun q => portsOf q.2.vault_nodes) =
      [[8200, 8201], [8200, 8201]] :=
  ⟨rfl, rfl⟩

/-- Inversion for a successful node step of `build_raft_server_nodes_map`:
the node's ports are fresh for this server and distinct from each other, its
node id is globally fresh, and the remaining nodes resolve with both
validation sets extended. -/
theorem buildNodes_cons_ok {sname : String} {sv : VaultServer} {san : String}
    {nname : String} {nd : VaultNode} {rest : List (String × VaultNode)}
    {pset : List Nat} {idset : List String}
    {r : List (String × VaultRaftNode) × List Nat × List String}
    (h : buildNodes sname sv san ((nname, nd) :: rest) pset idset = .ok r) :
    nd.node_port ∉ pset ∧ nd.cluster_port ∉ pset ∧ nd.node_port ≠ nd.cluster_port ∧
    (sname ++ "-" ++ nname) ∉ idset ∧
    ∃ out psF idsF,
      buildNodes sname sv san rest (nd.cluster_port :: nd.node_port :: pset)
        ((sname ++ "-" ++ nname) :: idset) = .ok (out, psF, idsF) := by
  simp only [buildNodes] at h
  split at h
  · exact absurd h (by simp)
  split at h
  · exact absurd h (by simp)
  split at h
  · exact absurd h (by simp)
  split at h
  · exact absurd h (by simp)
  split at h
  · exact absurd h (by simp)
  rename_i hok1 hok2 hok3 hport hid
  split at h
  · exact absurd h (by simp)
  rename_i out psF idsF hrec
  simp only [Bool.or_eq_true, not_or, beq_iff_eq] at hport hid
  exact ⟨fun hm => hport.1.1 (List.elem_iff.mpr hm),
    fun hm => hport.1.2 (List.elem_iff.mpr hm), hport.2,
    fun hm => hid (List.elem_iff.mpr hm), out, psF, idsF, hrec⟩

/-- Inversion for a successful server step of `build_raft_server_nodes_map`:
its nodes resolve from an empty port set, and the remaining servers resolve
from the extended node-id set. -/
theorem buildServers_cons_ok {san sname : String} {sv : VaultServer}
    {rest : List (String × VaultServer)} {idset : List String}
    {r : List (String × List (String × VaultRaftNode)) × List String}
    (h : buildServers san ((sname, sv) :: rest) idset = .ok r) :
    ∃ nodes psF idset1 out idsF,
      buildNodes sname sv san sv.vault_nodes [] idset = .ok (nodes, psF, idset1) ∧
      buildServers san rest idset1 = .ok (out, idsF) := by
  simp only [buildServers] at h
  split at h
  · exact absurd h (by simp)
  rename_i nodes psF idset1 hbn
  split at h
  · exact absurd h (by simp)
  rename_i out idsF hbs
  exact ⟨nodes, psF, idset1, out, idsF, hbn, hbs⟩

/-- Ports already in the per-server validation set do not reappear among the
remaining nodes of a successfully resolved server. -/
theorem buildNodes_fresh_ports (sname : String) (sv : VaultServer) (san : String) :
    ∀ (nodes : List (String × VaultNode)) (pset : List Nat) (idset : List String)
      (r : List (String × VaultRaftNode) × List Nat × List String),
    buildNodes sname sv san nodes pset idset = .ok r →
    ∀ x ∈ pset, x ∉ portsOf nodes := by
  intro nodes
  induction nodes with
  | nil => intro pset idset r h x hx; simp [portsOf]
  | cons head rest ih =>
    obtain ⟨nname, nd⟩ := head
    intro pset idset r h x hx
    obtain ⟨hp1, hp2, hpc, hidf, out, psF, idsF, hrec⟩ := buildNodes_cons_ok h
    simp only [portsOf, List.mem_cons, not_or]
    refine ⟨fun he => hp1 (he ▸ hx), fun he => hp2 (he ▸ hx), ?_⟩
    exact ih _ _ _ hrec x (List.mem_cons_of_mem _ (List.mem_cons_of_mem _ hx))

/-- The ports declared by a successfully resolved server are pairwise
distinct (across both port kinds of all its nodes). -/
theorem buildNodes_ports_nodup (sname : String) (sv : VaultServer) (san : String) :
    ∀ (nodes : List (String × VaultNode)) (pset : List Nat) (idset : List String)
      (r : List (String × VaultRaftNode) × List Nat × List String),
    buildNodes sname sv san nodes pset idset = .ok r →
    (portsOf nodes).Nodup := by
  intro nodes
  induction nodes with
  | nil => intro pset idset r h; simp [portsOf]
  | cons head rest ih =>
    obtain ⟨nname, nd⟩ := head
    intro pset idset r h
    obtain ⟨hp1, hp2, hpc, hidf, out, psF, idsF, hrec⟩ := buildNodes_cons_ok h
    have hfresh := buildNodes_fresh_ports sname sv san rest _ _ _ hrec
    simp only [portsOf, List.nodup_cons, List.mem_cons, not_or]
    refine ⟨⟨hpc, hfresh nd.node_port (by simp) ⟩, ?_, ih _ _ _ hrec⟩
    exact hfresh nd.cluster_port (by simp)

/-- Node-id bookkeeping of the inner loop: ids already recorded do not
reappear, the ids of a resolved server are pairwise distinct, and the
resulting id set is the input set extended by exactly this server's ids. -/
theorem buildNodes_ids (sname : String) (sv : VaultServer) (san : String) :
    ∀ (nodes : List (String × VaultNode)) (pset : List Nat) (idset : List String)
      (out : List (String × VaultRaftNode)) (psF : List Nat) (idsF : List String),
    buildNodes sname sv san nodes pset idset = .ok (out, psF, idsF) →
    (∀ x ∈ idset, x ∉ idsOf sname nodes) ∧ (idsOf sname nodes).Nodup ∧
    (∀ x, x ∈ idsF ↔ x ∈ idset ∨ x ∈ idsOf sname nodes) := by
  intro nodes
  induction nodes with
  | nil =>
    intro pset idset out psF idsF h
    simp only [buildNodes, Except.ok.injEq, Prod.mk.injEq] at h
    obtain ⟨-, -, h3⟩ := h
    subst h3
    simp [idsOf]
  | cons head rest ih =>
    obtain ⟨nname, nd⟩ := head
    intro pset idset out psF idsF h
    obtain ⟨hp1, hp2, hpc, hidf, out2, psF2, idsF2, hrec⟩ := buildNodes_cons_ok h
    have hsame : idsF2 = idsF := by
      simp only [buildNodes] at h
      split at h
      · exact absurd h (by simp)
      split at h
      · exact absurd h (by simp)
      split at h
      · exact absurd h (by simp)
      split at h
      · exact absurd h (by simp)
      split at h
      · exact absurd h (by simp)
      split at h
      · exact absurd h (by simp)
      rename_i out3 psF3 idsF3 hrec3
      rw [hrec3] at hrec
      simp only [Except.ok.injEq, Prod.mk.injEq] at h hrec
      rw [← hrec.2.2]
      exact h.2.2
    obtain ⟨ihf, ihn, ihm⟩ := ih _ _ _ _ _ hrec
    subst hsame
    refine ⟨?_, ?_, ?_⟩
    · intro x hx
      simp only [idsOf, List.mem_cons, not_or]
      exact ⟨fun he => hidf (he ▸ hx), ihf x (List.mem_cons_of_mem _ hx)⟩
    · simp only [idsOf, List.nodup_cons]
      exact ⟨ihf _ (List.mem_cons_self _ _), ihn⟩
    · intro x
      rw [ihm x]
      simp only [List.mem_cons, idsOf]
      tauto

/-- Outer-loop bookkeeping of `build_raft_server_nodes_map`: node ids are
globally fresh and pairwise distinct across all servers, and every resolved
server has pairwise distinct ports. -/
theorem buildServers_inv (san : String) :
    ∀ (servers : List (String × VaultServer)) (idset : List String)
      (out : List (String × List (String × VaultRaftNode))) (idsF : List String),
    buildServers san servers idset = .ok (out, idsF) →
    (∀ x ∈ idset, x ∉ allIds servers) ∧ (allIds servers).Nodup ∧
    (∀ x, x ∈ idsF ↔ x ∈ idset ∨ x ∈ allIds servers) ∧
    (∀ q ∈ servers, (portsOf q.2.vault_nodes).Nodup) := by
  intro servers
  induction servers with
  | nil =>
    intro idset out idsF h
    simp only [buildServers, Except.ok.injEq, Prod.mk.injEq] at h
    obtain ⟨-, h2⟩ := h
    subst h2
    simp [allIds]
  | cons head rest ih =>
    obtain ⟨sname, sv⟩ := head
    intro idset out idsF h
    obtain ⟨nodes, psF, idset1, out2, idsF2, hbn, hbs⟩ := buildServers_cons_ok h
    have hsame : idsF2 = idsF := by
      simp only [buildServers] at h
      rw [hbn] at h
      simp only at h
      rw [hbs] at h
      simp only [Except.ok.injEq, Prod.mk.injEq] at h
      exact h.2
    subst hsame
    obtain ⟨hnf, hnn, hnm⟩ := buildNodes_ids sname sv san _ _ _ _ _ _ hbn
    obtain ⟨ihf, ihn, ihm, ihp⟩ := ih _ _ _ hbs
    refine ⟨?_, ?_, ?_, ?_⟩
    · intro x hx
      simp only [allIds, List.mem_append, not_or]
      exact ⟨hnf x hx, ihf x ((hnm x).mpr (Or.inl hx))⟩
    · simp only [allIds]
      refine List.Nodup.append hnn ihn ?_
      intro y hy hy2
      exact ihf y ((hnm y).mpr (Or.inr hy)) hy2
    · intro x
      rw [ihm x, hnm x]
      simp only [allIds, List.mem_append]
      tauto
    · intro q hq
      rcases List.mem_cons.mp hq with he | hm
      · subst he
        exact buildNodes_ports_nodup sname sv san _ _ _ _ hbn
      · exact ihp q hm

/-- C1 (amended): in every successfully resolved topology the port values
(`node_port` and `cluster_port` together) of each single server are pairwise
distinct, and node ids are globally unique across all servers; a violation of
either makes `build_raft_server_nodes_map` fail with a `ValueError` naming
the offending server and node.  Port uniqueness is per server, not global:
nodes of different servers may share ports. -/
theorem c1_topology_uniqueness (cfg : VaultConfigTopo)
    (m : List (String × List (String × VaultRaftNode)))
    (h : build_raft_server_nodes_map cfg = .ok m) :
    (∀ q ∈ cfg.vault_servers, (portsOf q.2.vault_nodes).Nodup) ∧
    (allIds cfg.vault_servers).Nodup := by
  unfold build_raft_server_nodes_map at h
  split at h
  · exact absurd h (by simp)
  rename_i out idsF hbs
  have hinv := buildServers_inv cfg.vault_ha_hostname_san_entry cfg.vault_servers [] out idsF hbs
  exact ⟨hinv.2.2.2, hinv.2.1⟩

/-- C1 witness: the per-server port and global node-id uniqueness of the
resolved cross-server-duplicate topology. -/
theorem c1_witness :
    (∀ q ∈ crossServerDupCfg.vault_servers, (portsOf q.2.vault_nodes).Nodup) ∧
    (allIds crossServerDupCfg.vault_servers).Nodup :=
  c1_topology_uniqueness crossServerDupCfg _ rfl

/-- If every comparison in a check list passes, no mismatch is found. -/
theorem find_of_all_false (l : List (Bool × String)) (h : l.all (fun c => !c.1) = true) :
    l.find? (fun c => c.1) = none := by
  rw [List.find?_eq_none]
  intro x hx
  have hx2 := List.all_eq_true.mp h x hx
  simp only [Bool.not_eq_eq_eq_not, Bool.not_true] at hx2
  simp [hx2]

/-- A passing prefix of comparisons does not contribute the mismatch reason. -/
theorem firstMismatch_append_of_all (l1 l2 : List (Bool × String))
    (h : l1.all (fun c => !c.1) = true) :
    firstMismatch (l1 ++ l2) = firstMismatch l2 := by
  unfold firstMismatch
  rw [List.find?_append, find_of_all_false l1 h]
  rfl

/-- Evaluation of `generate_x590_certificate` on parsed existing content when
no comparison fails: the existing certificate is kept and re-serialized. -/
theorem generate_pem_none (rsa : Nat) (p : CertificateDetails)
    (ca : Option (X509Cert × Nat)) (now serial : Int) (e : CertExpectation) (ex : X509Cert)
    (he : expectedOf rsa p ca now = .ok e)
    (hfm : firstMismatch (allChecks ex e ca now) = none) :
    generate_x590_certificate (some rsa) ⟨some (.pem ex), p⟩ ca now serial =
      .ok { certificate := ex, certificate_content := ex, need_to_generate := false,
            certificate_full_chain :=
              match ca with | some (cacert, _) => [ex, cacert] | none => [ex],
            need_to_generate_reason := none } := by
  cases ca with
  | none => simp [generate_x590_certificate, he, hfm]
  | some cap => cases cap with | mk cacert cakey => simp [generate_x590_certificate, he, hfm]

/-- Evaluation of `generate_x590_certificate` on parsed existing content when
a comparison fails: the expected certificate is rebuilt and signed. -/
theorem generate_pem_some (rsa : Nat) (p : CertificateDetails)
    (ca : Option (X509Cert × Nat)) (now serial : Int) (e : CertExpectation) (ex : X509Cert)
    (r : String) (he : expectedOf rsa p ca now = .ok e)
    (hfm : firstMismatch (allChecks ex e ca now) = some r) :
    generate_x590_certificate (some rsa) ⟨some (.pem ex), p⟩ ca now serial =
      .ok { certificate := buildCert e serial, certificate_content := buildCert e serial,
            need_to_generate := true,
            certificate_full_chain :=
              match ca with
              | some (cacert, _) => [buildCert e serial, cacert]
              | none => [buildCert e serial],
            need_to_generate_reason := some r } := by
  cases ca with
  | none => simp [generate_x590_certificate, he, hfm]
  | some cap => cases cap with | mk cacert cakey => simp [generate_x590_certificate, he, hfm]

/-- An expectation-stage `VaultOpsRetryError` propagates out of
`generate_x590_certificate` unchanged. -/
theorem generate_expected_err (rsa : Nat) (cp : CertificateProperties)
    (ca : Option (X509Cert × Nat)) (now serial : Int) (er : VErr)
    (he : expectedOf rsa cp.certificate_details ca now = .error er) :
    generate_x590_certificate (some rsa) cp ca now serial = .error er := by
  simp [generate_x590_certificate, he]

/-- Requesting a critical flag without its base extension makes the
expectation stage raise `VaultOpsRetryError`, provided no earlier check
fires: the four cases are key usage, extended key usage, basic constraints
and subject alternative name, in source order. -/
theorem expectedOf_guard_retry (rsa : Nat) (p : CertificateDetails)
    (ca : Option (X509Cert × Nat)) (now : Int)
    (hname : p.name.isEmpty = false)
    (haki1 : p.authority_key_identifier = false)
    (haki2 : p.authority_key_identifier_critical = false)
    (hski : p.subject_key_identifier = true ∨ p.subject_key_identifier_critical = false)
    (hcase : kuGuard p = true ∨ (kuGuard p = false ∧ ekuGuard p = true) ∨
      (kuGuard p = false ∧ ekuGuard p = false ∧ bcGuard p = true) ∨
      (kuGuard p = false ∧ ekuGuard p = false ∧ bcGuard p = false ∧ sanGuard p = true)) :
    isRetryErr (expectedOf rsa p ca now) = true := by
  have hsk : ((if p.subject_key_identifier then some rsa else none : Option Nat).isNone &&
      p.subject_key_identifier_critical) = false := by
    rcases hski with h | h <;> simp [h]
  rcases hcase with h1 | ⟨h1, h2⟩ | ⟨h1, h2, h3⟩ | ⟨h1, h2, h3, h4⟩
  · simp [expectedOf, hname, haki1, haki2, hsk, h1, isRetryErr]
  · simp [expectedOf, hname, haki1, haki2, hsk, h1, h2, isRetryErr]
  · simp [expectedOf, hname, haki1, haki2, hsk, h1, h2, h3, isRetryErr]
  · have hsp : sanPresent p = false := by
      revert h4; unfold sanGuard; cases sanPresent p <;> simp
    simp [expectedOf, hname, haki1, haki2, hsk, h1, h2, h3, h4, hsp, isRetryErr]

/-- C4: as the claim states it, a critical flag without its base extension
would be a fatal error never retried; in the code it is a
`VaultOpsRetryError`, and the top-level loop retries such an error (a second
attempt runs after the first raises it). -/
theorem c4_counterexample :
    generate_x590_certificate (some 1) ⟨none, kuCritProps⟩ none 0 1 =
      .error (.retry "key_usage_critical cannot be set without key_usage") ∧
    main (fun i => if i == 0 then
        .err (.retry "key_usage_critical cannot be set without key_usage")
      else .ok) = ⟨.completed, 2, 10⟩ :=
  ⟨rfl, rfl⟩

/-- C4 (amended): for every certificate property set requesting a critical
flag for an extension whose base extension is not enabled (key usage,
extended key usage, basic constraints, or subject alternative name),
`generate_x590_certificate` fails with the retryable `VaultOpsRetryError`
(which the top-level loop retries), raised before any certificate is built. -/
theorem c4_critical_without_base_retryable (rsa : Nat) (content : Option CertContent)
    (p : CertificateDetails) (ca : Option (X509Cert × Nat)) (now serial : Int)
    (hname : p.name.isEmpty = false)
    (haki1 : p.authority_key_identifier = false)
    (haki2 : p.authority_key_identifier_critical = false)
    (hski : p.subject_key_identifier = true ∨ p.subject_key_identifier_critical = false)
    (hcase : kuGuard p = true ∨ (kuGuard p = false ∧ ekuGuard p = true) ∨
      (kuGuard p = false ∧ ekuGuard p = false ∧ bcGuard p = true) ∨
      (kuGuard p = false ∧ ekuGuard p = false ∧ bcGuard p = false ∧ sanGuard p = true)) :
    isRetryErr (generate_x590_certificate (some rsa) ⟨content, p⟩ ca now serial) = true := by
  have h := expectedOf_guard_retry rsa p ca now hname haki1 haki2 hski hcase
  cases hE : expectedOf rsa p ca now with
  | ok e => rw [hE] at h; simp [isRetryErr] at h
  | error er =>
    rw [generate_expected_err rsa ⟨content, p⟩ ca now serial er hE]
    rw [hE] at h
    cases er <;> simp [isRetryErr] at h ⊢

/-- C4 witness: the amended theorem for each of the four critical-without-base
property sets. -/
theorem c4_witness :
    isRetryErr (generate_x590_certificate (some 1) ⟨none, kuCritProps⟩ none 0 1) = true ∧
    isRetryErr (generate_x590_certificate (some 1)
      ⟨none, { name := [("COMMON_NAME", "x")], extended_key_usage_critical := true }⟩
      none 0 1) = true ∧
    isRetryErr (generate_x590_certificate (some 1)
      ⟨none, { name := [("COMMON_NAME", "x")], basic_constraints_critical := true }⟩
      none 0 1) = true ∧
    isRetryErr (generate_x590_certificate (some 1)
      ⟨none, { name := [("COMMON_NAME", "x")], subject_alternative_name_critical := true }⟩
      none 0 1) = true :=
  ⟨c4_critical_without_base_retryable 1 none kuCritProps none 0 1 rfl rfl rfl
      (Or.inr rfl) (Or.inl rfl),
   c4_critical_without_base_retryable 1 none
      { name := [("COMMON_NAME", "x")], extended_key_usage_critical := true } none 0 1
      rfl rfl rfl (Or.inr rfl) (Or.inr (Or.inl ⟨rfl, rfl⟩)),
   c4_critical_without_base_retryable 1 none
      { name := [("COMMON_NAME", "x")], basic_constraints_critical := true } none 0 1
      rfl rfl rfl (Or.inr rfl) (Or.inr (Or.inr (Or.inl ⟨rfl, rfl, rfl⟩))),
   c4_critical_without_base_retryable 1 none
      { name := [("COMMON_NAME", "x")], subject_alternative_name_critical := true } none 0 1
      rfl rfl rfl (Or.inr rfl) (Or.inr (Or.inr (Or.inr ⟨rfl, rfl, rfl, rfl⟩)))⟩

/-- C5: an existing certificate conforming to the expected structure is kept:
`need_to_generate` is false, the output PEM is the existing certificate, and
a second call on that output returns the identical result (for any freshly
drawn serial); mismatching the declared SAN while every earlier field
matches forces regeneration with a reason naming the SAN field. -/
theorem c5_certificate_idempotence (rsa : Nat) (p : CertificateDetails)
    (ca : Option (X509Cert × Nat)) (now serial serial2 : Int) (e : CertExpectation)
    (he : expectedOf rsa p ca now = .ok e) :
    (∀ ex g, generate_x590_certificate (some rsa) ⟨some (.pem ex), p⟩ ca now serial = .ok g →
      conformsTo ex e ca now = true →
      g.need_to_generate = false ∧ g.certificate_content = ex ∧ g.certificate = ex ∧
      generate_x590_certificate (some rsa) ⟨some (.pem g.certificate_content), p⟩
        ca now serial2 = .ok g) ∧
    (∀ ex g, generate_x590_certificate (some rsa) ⟨some (.pem ex), p⟩ ca now serial = .ok g →
      fieldsMatchBeforeSan ex e = true →
      ex.san_ext.map Prod.fst ≠ e.san_value →
      g.need_to_generate = true ∧
      g.need_to_generate_reason =
        some "Existing certificate's Subject Alternative Name does not match.") := by
  constructor
  · intro ex g hgen hconf
    have hfm : firstMismatch (allChecks ex e ca now) = none := by
      unfold firstMismatch
      rw [find_of_all_false _ hconf]
      rfl
    have h1 := generate_pem_none rsa p ca now serial e ex he hfm
    have h2 := generate_pem_none rsa p ca now serial2 e ex he hfm
    rw [h1] at hgen
    have hg := Except.ok.inj hgen
    subst hg
    exact ⟨rfl, rfl, rfl, h2⟩
  · intro ex g hgen hpre hsan
    have hsplit := List.take_append_drop 13 (fieldChecks ex e)
    have hdrop : (fieldChecks ex e).drop 13 =
        [(ex.san_ext.map Prod.fst != e.san_value,
          "Existing certificate's Subject Alternative Name does not match."),
         (ex.san_ext.map Prod.snd != e.san_critical,
          "Existing certificate's Subject Alternative Name Critical does not match. ")] := rfl
    have hb : (ex.san_ext.map Prod.fst != e.san_value) = true := bne_iff_ne.mpr hsan
    have hfm : firstMismatch (allChecks ex e ca now) =
        some "Existing certificate's Subject Alternative Name does not match." := by
      unfold allChecks
      rw [← hsplit, List.append_assoc, firstMismatch_append_of_all _ _ hpre, hdrop]
      simp [firstMismatch, List.find?, hb]
    have h1 := generate_pem_some rsa p ca now serial e ex _ he hfm
    rw [h1] at hgen
    have hg := Except.ok.inj hgen
    subst hg
    exact ⟨rfl, rfl⟩

/-- C5 witness: the idempotence and single-property-change scenarios at a
concrete conformant certificate. -/
theorem c5_witness :
    generate_x590_certificate (some 7) ⟨some (.pem c5ex), demoProps⟩ none 100 5 = .ok c5gen ∧
    c5gen.need_to_generate = false ∧ c5gen.certificate_content = c5ex ∧
    generate_x590_certificate (some 7) ⟨some (.pem c5ex), demoProps⟩ none 100 6 = .ok c5gen ∧
    generate_x590_certificate (some 7) ⟨some (.pem c5exAddedSan), demoProps⟩ none 100 5 =
      .ok c5genAddedSan ∧
    c5genAddedSan.need_to_generate = true ∧
    c5genAddedSan.need_to_generate_reason =
      some "Existing certificate's Subject Alternative Name does not match." :=
  have h := c5_certificate_idempotence 7 demoProps none 100 5 6 demoExp (by decide)
  have h1 := h.1 c5ex c5gen (by decide) (by decide)
  have h2 := h.2 c5exAddedSan c5genAddedSan (by decide) (by decide) (by decide)
  ⟨by decide, h1.1, h1.2.1, h1.2.2.2, by decide, h2.1, h2.2⟩

/-- C6: an existing certificate that is expired or not yet valid at the
current time is regenerated: `need_to_generate` is true and the output is the
freshly built and signed certificate; when every field comparison passes, the
reason is `Existing certificate is expired` or
`Existing certificate is not valid yet`. -/
theorem c6_expired_or_premature_regenerates (rsa : Nat) (p : CertificateDetails)
    (ca : Option (X509Cert × Nat)) (now serial : Int) (e : CertExpectation)
    (ex : X509Cert) (g : GeneratedCertificate)
    (he : expectedOf rsa p ca now = .ok e)
    (hgen : generate_x590_certificate (some rsa) ⟨some (.pem ex), p⟩ ca now serial = .ok g)
    (hbad : ex.not_valid_after < now ∨ ex.not_valid_before > now) :
    g.need_to_generate = true ∧ g.certificate = buildCert e serial ∧
    (fieldsMatch ex e = true →
      g.need_to_generate_reason =
        some (if ex.not_valid_after < now then "Existing certificate is expired"
              else "Existing certificate is not valid yet")) := by
  cases hfm : firstMismatch (allChecks ex e ca now) with
  | none =>
    exfalso
    have hfind : (allChecks ex e ca now).find? (fun c => c.1) = none := by
      unfold firstMismatch at hfm
      exact Option.map_eq_none'.mp hfm
    have hall := List.find?_eq_none.mp hfind
    rcases hbad with h | h
    · exact hall (decide (ex.not_valid_after < now), "Existing certificate is expired")
        (List.mem_append_right _ (List.mem_cons_self _ _)) (by simpa using h)
    · exact hall (decide (ex.not_valid_before > now), "Existing certificate is not valid yet")
        (List.mem_append_right _ (List.mem_cons_of_mem _ (List.mem_cons_self _ _)))
        (by simpa using h)
  | some r =>
    have h1 := generate_pem_some rsa p ca now serial e ex r he hfm
    rw [h1] at hgen
    have hg := Except.ok.inj hgen
    subst hg
    refine ⟨rfl, rfl, fun hfields => ?_⟩
    have hval : firstMismatch (allChecks ex e ca now) =
        some (if ex.not_valid_after < now then "Existing certificate is expired"
              else "Existing certificate is not valid yet") := by
      unfold allChecks
      rw [firstMismatch_append_of_all _ _ hfields]
      by_cases hx : ex.not_valid_after < now
      · simp [firstMismatch, validityChecks, List.find?, hx]
      · have hnb : ex.not_valid_before > now := by
          rcases hbad with h | h
          · exact absurd h hx
          · exact h
        simp [firstMismatch, validityChecks, List.find?, hx, hnb]
    rw [hfm] at hval
    simpa using hval

/-- C6 witness: a field-conformant but expired certificate is rebuilt with
reason `Existing certificate is expired`. -/
theorem c6_witness :
    generate_x590_certificate (some 7) ⟨some (.pem c6exExpired), demoProps⟩ none 100 9 =
      .ok c6genExpired ∧
    c6genExpired.need_to_generate = true ∧
    c6genExpired.certificate = demoCert 9 100 130 ∧
    c6genExpired.need_to_generate_reason = some "Existing certificate is expired" :=
  have h := c6_expired_or_premature_regenerates 7 demoProps none 100 9 demoExp c6exExpired
    c6genExpired (by decide) (by decide) (Or.inl (by decide))
  ⟨by decide, h.1, h.2.1, by simpa using h.2.2 (by decide)⟩

/-- C10 witness: the semantics at a concrete environment. -/
theorem c10_witness :
    (vault_config_storage_ops_read
      { skip_region_validation := false, bucket_location := "main", region := "main",
        versioning_status := "Enabled", get_result := .clientError "NoSuchKey" } false =
      .ok none) ∧
    (vault_config_storage_ops_read
      { skip_region_validation := false, bucket_location := "main", region := "main",
        versioning_status := "Enabled", get_result := .clientError "NoSuchKey" } true =
      .error "Error reading file from S3") ∧
    (storage_config_storage_ops_read "Enabled" (.clientError "AccessDenied") false =
      .error "S3 Client Error") :=
  have h := c10_missing_key_semantics
    { skip_region_validation := false, bucket_location := "main", region := "main",
      versioning_status := "Enabled", get_result := .success "x" } "AccessDenied" "boom" false
    rfl (Or.inr rfl)
  ⟨h.1, h.2.1, h.2.2.2.2.2.2.1 (by decide)⟩

end Vaultops
